import Mathlib

/-!
Shallow embedding of `src/static/js/main.js`: the client-side page script of
the 1cbs app.  The DOM is modelled as a partial map from element ids to
element records; each event handler of the script becomes a pure state
transformer, and the asynchronous `fetch` call of `handleUpload` is modelled
by an explicit outcome type (the promise either rejects, or resolves with an
HTTP status and a body that does or does not parse as JSON).
-/

namespace MainJs

/-- An element record holding the attributes this script reads or writes:
`style.display`, the class list, and (for the embedded video element) the
`src` attribute and the paused flag. -/
structure Elem where
  display : String
  classes : List String
  src : String
  paused : Bool
deriving DecidableEq, Repr

/-- The DOM as seen through `document.getElementById`: a partial map from
element ids to elements. -/
def Dom : Type := String → Option Elem

/-- Write an element back under an id (mutation of the looked-up node). -/
def setElem (d : Dom) (eltId : String) (e : Elem) : Dom :=
  fun j => if j = eltId then some e else d j

/-- The `style.display` of the element with the given id, when it exists. -/
def displayOf (d : Dom) (eltId : String) : Option String :=
  (d eltId).map Elem.display

/-- JavaScript truthiness of the optional `videoSrc` argument: `undefined`
and the empty string are falsy. -/
def truthyStr : Option String → Bool
  | none => false
  | some s => s ≠ ""

/-- Model of `classList.add`: appends the token unless already present. -/
def classAdd (cs : List String) (c : String) : List String :=
  if cs.contains c then cs else cs ++ [c]

/-- Model of `classList.remove`: removes every occurrence of the token. -/
def classRemove (cs : List String) (c : String) : List String :=
  cs.filter (fun x => x ≠ c)

/-- Model of `window.openModal(modalId, videoSrc)`: looks the modal up by id (no-op
when absent), sets `display` to `"block"`, and when the id is
`'videoPlayerModal'` and `videoSrc` is truthy, assigns the source to the
`'videoPlayer'` element (when present) and starts playback. -/
def openModal (d : Dom) (modalId : String) (videoSrc : Option String) : Dom :=
  match d modalId with
  | none => d
  | some modal =>
    let d1 := setElem d modalId { modal with display := "block" }
    if modalId = "videoPlayerModal" ∧ truthyStr videoSrc then
      match d1 "videoPlayer" with
      | none => d1
      | some vp =>
        setElem d1 "videoPlayer" { vp with src := videoSrc.getD "", paused := false }
    else d1

/-- Model of `window.closeModal(modalId)`: looks the modal up by id (no-op when
absent), sets `display` to `"none"`, and when the id is `'videoPlayerModal'`
pauses the `'videoPlayer'` element (when present) and clears its source. -/
def closeModal (d : Dom) (modalId : String) : Dom :=
  match d modalId with
  | none => d
  | some modal =>
    let d1 := setElem d modalId { modal with display := "none" }
    if modalId = "videoPlayerModal" then
      match d1 "videoPlayer" with
      | none => d1
      | some vp =>
        setElem d1 "videoPlayer" { vp with paused := true, src := "" }
    else d1

/-- Model of `window.onclick`: when the click target carries the `'modal'` class,
close the modal named by the target's own id; otherwise do nothing. -/
def windowOnclick (d : Dom) (targetId : String) (targetClasses : List String) : Dom :=
  if targetClasses.contains "modal" then closeModal d targetId else d

/-- The state `togglePassword` acts on: the password input's `type`
attribute and the icon element's class list. -/
structure PwState where
  inputType : String
  iconClasses : List String
deriving DecidableEq, Repr

/-- Model of `window.togglePassword(button)` on well-formed markup: if the input is
masked, switch it to plain text and swap the icon from eye to eye-slash;
otherwise the reverse. -/
def togglePassword (s : PwState) : PwState :=
  if s.inputType = "password" then
    { inputType := "text",
      iconClasses := classAdd (classRemove s.iconClasses "fa-eye") "fa-eye-slash" }
  else
    { inputType := "password",
      iconClasses := classAdd (classRemove s.iconClasses "fa-eye-slash") "fa-eye" }

/-- Model of `window.togglePassword(button)` including the markup lookups:
`button.previousElementSibling` may be `null` (no input) and
`button.querySelector('i')` may be `null` (no icon); touching either `null`
throws, modelled as `none`.  The exception is neither caught nor reported. -/
def togglePasswordJS (input? : Option String) (icon? : Option (List String)) :
    Option PwState :=
  match input?, icon? with
  | some t, some cs => some (togglePassword ⟨t, cs⟩)
  | _, _ => none

/-- Model of `setupDropZone(zoneId, inputId)` as a configuration check: it receives
whether `getElementById` found the zone and the input, and the input's
`dataset.uploadUrl` (`none` when the attribute is missing).  It returns the
captured upload URL when all listeners get registered, and `none` when setup
aborts before registering any listener. -/
def setupDropZone (dropZone? : Option Unit) (fileInput? : Option (Option String)) :
    Option String :=
  match dropZone?, fileInput? with
  | some _, some uploadUrl? =>
    match uploadUrl? with
    | none => none
    | some u => if u = "" then none else some u
  | _, _ => none

/-- The events a configured zone reacts to. -/
inductive ZEvent where
  | click
  | dragover
  | dragleave
  | drop (files : List String)
  | change
deriving DecidableEq, Repr

/-- The mutable state of one zone/input pair: the zone's class list, the
input's file list, and whether the native file dialog has been opened. -/
structure ZoneState where
  zoneClasses : List String
  inputFiles : List String
  dialogOpened : Bool
deriving DecidableEq, Repr

/-- Result of dispatching one event: the new zone state and the upload that
was initiated, if any, as a `(url, files)` pair handed to `handleUpload`. -/
structure DispatchResult where
  state : ZoneState
  upload : Option (String × List String)
deriving DecidableEq, Repr

/-- Event dispatch on a zone.  With no binding (setup aborted) nothing is
registered, so every event leaves the state unchanged and starts no upload.
With a binding the five registered listeners run: click opens the dialog,
dragover adds the `'dragover'` class, dragleave removes it, drop removes it
and (when files were dropped) assigns them to the input and uploads, change
uploads the input's files when nonempty. -/
def dispatch (binding : Option String) (ev : ZEvent) (st : ZoneState) :
    DispatchResult :=
  match binding with
  | none => ⟨st, none⟩
  | some url =>
    match ev with
    | .click => ⟨{ st with dialogOpened := true }, none⟩
    | .dragover => ⟨{ st with zoneClasses := classAdd st.zoneClasses "dragover" }, none⟩
    | .dragleave => ⟨{ st with zoneClasses := classRemove st.zoneClasses "dragover" }, none⟩
    | .drop files =>
      let st1 := { st with zoneClasses := classRemove st.zoneClasses "dragover" }
      if files.length ≠ 0 then
        ⟨{ st1 with inputFiles := files }, some (url, files)⟩
      else
        ⟨st1, none⟩
    | .change =>
      if st.inputFiles.length ≠ 0 then ⟨st, some (url, st.inputFiles)⟩ else ⟨st, none⟩

/-- The multipart body built by `handleUpload`: `formData.append('file',
files[i])` for each `i`, in order. -/
def formDataParts (files : List String) : List (String × String) :=
  files.map (fun f => ("file", f))

/-- Outcome of the `fetch` promise: it either rejects (transport failure),
or resolves with an HTTP status and a body that does or does not parse as
JSON (`response.json()` rejects on a non-JSON body). -/
inductive FetchResponse where
  | rejected
  | resolved (status : Nat) (jsonBody? : Option String)
deriving DecidableEq, Repr

/-- The observable effects of one `handleUpload` run: the POST that was
issued (URL and multipart parts), whether the page was reloaded, and how
many alerts were shown. -/
structure UploadOutcome where
  post : String × List (String × String)
  reloaded : Bool
  alerts : Nat
deriving DecidableEq, Repr

/-- Model of `handleUpload(files, url)`: build the multipart body, POST it, then
parse the response as JSON and reload on success; the catch handler shows
one alert on a rejected fetch or a JSON-parse failure.  The HTTP status is
never inspected. -/
def handleUpload (files : List String) (url : String) (resp : FetchResponse) :
    UploadOutcome :=
  let parts := formDataParts files
  match resp with
  | .rejected => ⟨(url, parts), false, 1⟩
  | .resolved _status jsonBody? =>
    match jsonBody? with
    | none => ⟨(url, parts), false, 1⟩
    | some _ => ⟨(url, parts), true, 0⟩

/-- One decorative star node: randomized position, size (height = width) and
animation timing. -/
structure Star where
  top : ℚ
  left : ℚ
  width : ℚ
  height : ℚ
  delay : ℚ
  duration : ℚ
deriving DecidableEq, Repr

/-- The fixed star count of the background loop. -/
def numberOfStars : Nat := 150

/-- One iteration of the star loop, consuming five successive `Math.random()`
values from the stream `r`: top, left, width (height copies width), delay,
duration. -/
def mkStar (r : Nat → ℚ) (i : Nat) : Star :=
  let w := r (5 * i + 2) * 3
  { top := r (5 * i) * 100
    left := r (5 * i + 1) * 100
    width := w
    height := w
    delay := r (5 * i + 3) * 5
    duration := r (5 * i + 4) * 5 + 5 }

/-- The children appended to the star container at startup: nothing when the
container is absent, otherwise `numberOfStars` stars built from the random
stream. -/
def starsAppended (containerPresent : Bool) (r : Nat → ℚ) : List Star :=
  if containerPresent then (List.range numberOfStars).map (mkStar r) else []

/-! ### Shared helper lemmas -/

theorem mem_classAdd (cs : List String) (c c0 : String) :
    c ∈ classAdd cs c0 ↔ c ∈ cs ∨ c = c0 := by
  unfold classAdd
  split
  · next h =>
    have : c0 ∈ cs := by simpa using h
    constructor
    · exact fun hc => Or.inl hc
    · rintro (hc | rfl) <;> assumption
  · simp

theorem mem_classRemove (cs : List String) (c c0 : String) :
    c ∈ classRemove cs c0 ↔ c ∈ cs ∧ c ≠ c0 := by
  simp [classRemove]

theorem setElem_self (d : Dom) (eltId : String) (e : Elem) :
    setElem d eltId e eltId = some e := by
  simp [setElem]

theorem setElem_ne (d : Dom) (eltId j : String) (e : Elem) (h : j ≠ eltId) :
    setElem d eltId e j = d j := by
  simp [setElem, h]

/-- The operation `closeModal` always leaves the named modal hidden when it exists. -/
theorem closeModal_display_self (d : Dom) (modalId : String)
    (h : (d modalId).isSome = true) :
    displayOf (closeModal d modalId) modalId = some "none" := by
  obtain ⟨m, hm⟩ := Option.isSome_iff_exists.mp h
  unfold closeModal
  rw [hm]
  by_cases hv : modalId = "videoPlayerModal"
  · subst hv
    simp only [if_pos rfl]
    cases hvp : setElem d "videoPlayerModal" { m with display := "none" } "videoPlayer" with
    | none => simp [displayOf, setElem_self]
    | some vp =>
      have hne : ("videoPlayerModal" : String) ≠ "videoPlayer" := by decide
      simp [displayOf, setElem_ne _ _ _ _ hne, setElem_self]
  · simp [hv, displayOf, setElem_self]

/-- The operation `openModal` never removes the named modal from the DOM. -/
theorem openModal_isSome_self (d : Dom) (modalId : String) (vs : Option String)
    (h : (d modalId).isSome = true) :
    ((openModal d modalId vs) modalId).isSome = true := by
  obtain ⟨m, hm⟩ := Option.isSome_iff_exists.mp h
  unfold openModal
  rw [hm]
  by_cases hv : modalId = "videoPlayerModal" ∧ truthyStr vs
  · simp only [if_pos hv]
    obtain ⟨hv1, _⟩ := hv
    subst hv1
    cases hvp : setElem d "videoPlayerModal" { m with display := "block" } "videoPlayer" with
    | none => simp [setElem_self]
    | some vp =>
      have hne : ("videoPlayerModal" : String) ≠ "videoPlayer" := by decide
      simp [setElem_ne _ _ _ _ hne, setElem_self]
  · simp only [if_neg hv]
    simp [setElem_self]

/-- The operation `closeModal` changes the visibility of no element other than the named
modal (the video-player special case touches only `src`/`paused`). -/
theorem displayOf_closeModal_ne (d : Dom) (modalId j : String) (h : j ≠ modalId) :
    displayOf (closeModal d modalId) j = displayOf d j := by
  unfold closeModal
  cases hm : d modalId with
  | none => rfl
  | some m =>
    by_cases hv : modalId = "videoPlayerModal"
    · subst hv
      simp only [if_pos rfl]
      cases hvp : setElem d "videoPlayerModal" { m with display := "none" } "videoPlayer" with
      | none => simp [displayOf, setElem_ne _ _ _ _ h]
      | some vp =>
        by_cases hj : j = "videoPlayer"
        · subst hj
          have hne : ("videoPlayer" : String) ≠ "videoPlayerModal" := by decide
          rw [setElem_ne _ _ _ _ hne] at hvp
          simp [displayOf, setElem_self, hvp]
        · simp [displayOf, setElem_ne _ _ _ _ hj, setElem_ne _ _ _ _ h]
    · simp [hv, displayOf, setElem_ne _ _ _ _ h]

/-! ### Claim theorems -/

/-- C1: a drop of files `[A, B]` on a configured zone hands `handleUpload`
exactly `(url, [A, B])`; the POST goes to the zone's URL with exactly the two
parts `("file", A), ("file", B)` in order; a response whose body parses as
JSON triggers the reload (and no alert); a rejected fetch or a JSON-parse
failure triggers exactly one alert and no reload. -/
theorem drop_upload_two_files (A B url : String) (st : ZoneState) (resp : FetchResponse) :
    (dispatch (some url) (ZEvent.drop [A, B]) st).upload = some (url, [A, B])
    ∧ (handleUpload [A, B] url resp).post = (url, [("file", A), ("file", B)])
    ∧ (∀ s j, resp = FetchResponse.resolved s (some j) →
        (handleUpload [A, B] url resp).reloaded = true
        ∧ (handleUpload [A, B] url resp).alerts = 0)
    ∧ ((resp = FetchResponse.rejected ∨ ∃ s, resp = FetchResponse.resolved s none) →
        (handleUpload [A, B] url resp).alerts = 1
        ∧ (handleUpload [A, B] url resp).reloaded = false) := by
  refine ⟨by simp [dispatch], ?_, ?_, ?_⟩
  · cases resp with
    | rejected => simp [handleUpload, formDataParts]
    | resolved s j => cases j <;> simp [handleUpload, formDataParts]
  · rintro s j rfl
    simp [handleUpload]
  · rintro (rfl | ⟨s, rfl⟩) <;> simp [handleUpload]

theorem drop_upload_two_files_check :
    (dispatch (some "/upload") (ZEvent.drop ["a.txt", "b.txt"]) ⟨["dragover"], [], false⟩).upload
      = some ("/upload", ["a.txt", "b.txt"])
    ∧ (handleUpload ["a.txt", "b.txt"] "/upload"
        (FetchResponse.resolved 200 (some "ok"))).reloaded = true
    ∧ (handleUpload ["a.txt", "b.txt"] "/upload" FetchResponse.rejected).alerts = 1 :=
  ⟨(drop_upload_two_files "a.txt" "b.txt" "/upload" ⟨["dragover"], [], false⟩
      (FetchResponse.resolved 200 (some "ok"))).1,
   ((drop_upload_two_files "a.txt" "b.txt" "/upload" ⟨["dragover"], [], false⟩
      (FetchResponse.resolved 200 (some "ok"))).2.2.1 200 "ok" rfl).1,
   ((drop_upload_two_files "a.txt" "b.txt" "/upload" ⟨["dragover"], [], false⟩
      FetchResponse.rejected).2.2.2 (Or.inl rfl)).1⟩

/-- C2: the alert-and-no-reload path is taken exactly when the fetch chain
rejects (transport failure or non-JSON body); a response whose body parses
as JSON triggers the reload and never the alert, whatever its HTTP status. -/
theorem upload_alert_iff_rejected (files : List String) (url : String) (resp : FetchResponse) :
    ((handleUpload files url resp).alerts = 1 ∧ (handleUpload files url resp).reloaded = false
      ↔ resp = FetchResponse.rejected ∨ ∃ s, resp = FetchResponse.resolved s none)
    ∧ (∀ s j, (handleUpload files url (FetchResponse.resolved s (some j))).reloaded = true
        ∧ (handleUpload files url (FetchResponse.resolved s (some j))).alerts = 0) := by
  constructor
  · cases resp with
    | rejected => simp [handleUpload]
    | resolved s j => cases j <;> simp [handleUpload]
  · intro s j
    simp [handleUpload]

theorem upload_alert_iff_rejected_check :
    (handleUpload ["f"] "/u" FetchResponse.rejected).alerts = 1
    ∧ (handleUpload ["f"] "/u" (FetchResponse.resolved 500 (some "err-json"))).reloaded = true
    ∧ (handleUpload ["f"] "/u" (FetchResponse.resolved 500 (some "err-json"))).alerts = 0 :=
  ⟨((upload_alert_iff_rejected ["f"] "/u" FetchResponse.rejected).1.mpr (Or.inl rfl)).1,
   ((upload_alert_iff_rejected ["f"] "/u" FetchResponse.rejected).2 500 "err-json").1,
   ((upload_alert_iff_rejected ["f"] "/u" FetchResponse.rejected).2 500 "err-json").2⟩

/-- C3: when the zone element or the input element is missing, or the
upload-URL data attribute is missing or empty, `setupDropZone` registers no
listener, so every subsequent event on that zone leaves the state unchanged
and starts no upload. -/
theorem setup_abort_inert (zone? : Option Unit) (input? : Option (Option String))
    (h : zone? = none ∨ input? = none ∨ input? = some none ∨ input? = some (some "")) :
    setupDropZone zone? input? = none
    ∧ ∀ ev st, dispatch (setupDropZone zone? input?) ev st = ⟨st, none⟩ := by
  have hnone : setupDropZone zone? input? = none := by
    rcases h with rfl | rfl | rfl | rfl
    · cases input? <;> rfl
    · cases zone? <;> rfl
    · cases zone? <;> rfl
    · cases zone? <;> rfl
  refine ⟨hnone, fun ev st => ?_⟩
  rw [hnone]
  rfl

theorem setup_abort_inert_check :
    setupDropZone (some ()) (some none) = none
    ∧ dispatch (setupDropZone (some ()) (some none)) (ZEvent.drop ["x"]) ⟨[], [], false⟩
      = ⟨⟨[], [], false⟩, none⟩ :=
  ⟨(setup_abort_inert (some ()) (some none) (Or.inr (Or.inr (Or.inl rfl)))).1,
   (setup_abort_inert (some ()) (some none) (Or.inr (Or.inr (Or.inl rfl)))).2
     (ZEvent.drop ["x"]) ⟨[], [], false⟩⟩

/-- C10: a drop carrying an empty file list on a configured zone starts no
upload and leaves the input's file list unchanged; only the `'dragover'`
indicator class is removed from the zone. -/
theorem drop_empty_frame (url : String) (st : ZoneState) :
    dispatch (some url) (ZEvent.drop []) st
      = ⟨{ st with zoneClasses := classRemove st.zoneClasses "dragover" }, none⟩ := by
  simp [dispatch]

/-- C9: `togglePassword` completes without throwing exactly when the markup
precondition holds (the button has a previous sibling input and contains an
icon); a violation surfaces as the uncaught exception, never as a result. -/
theorem toggle_password_total_iff (input? : Option String) (icon? : Option (List String)) :
    ((input? ≠ none ∧ icon? ≠ none) →
      (togglePasswordJS input? icon?).isSome = true)
    ∧ (togglePasswordJS input? icon? = none ↔ (input? = none ∨ icon? = none)) := by
  cases input? <;> cases icon? <;> simp [togglePasswordJS]

theorem toggle_password_total_iff_check :
    (togglePasswordJS (some "password") (some ["fa-eye"])).isSome = true
    ∧ (togglePasswordJS none (some ["fa-eye"]) = none) :=
  ⟨(toggle_password_total_iff (some "password") (some ["fa-eye"])).1
     ⟨Option.some_ne_none _, Option.some_ne_none _⟩,
   (toggle_password_total_iff none (some ["fa-eye"])).2.mpr (Or.inl rfl)⟩

/-- C4: opening then closing a modal that exists leaves it hidden; on an id
naming no element both operations are no-ops that leave the DOM unchanged
(and, being total functions, raise no exception). -/
theorem open_then_close_hidden (d : Dom) (modalId : String) (vs : Option String) :
    ((d modalId).isSome = true →
      displayOf (closeModal (openModal d modalId vs) modalId) modalId = some "none")
    ∧ (d modalId = none →
      openModal d modalId vs = d ∧ closeModal d modalId = d) := by
  constructor
  · intro h
    exact closeModal_display_self _ _ (openModal_isSome_self d modalId vs h)
  · intro h
    constructor
    · unfold openModal
      rw [h]
    · unfold closeModal
      rw [h]

/-- A sample DOM with a single modal `m1`. -/
def domA : Dom := fun i =>
  if i = "m1" then some ⟨"block", ["modal"], "", true⟩ else none

theorem open_then_close_hidden_check :
    displayOf (closeModal (openModal domA "m1" none) "m1") "m1" = some "none"
    ∧ openModal domA "zzz" none = domA :=
  ⟨(open_then_close_hidden domA "m1" none).1 (by decide),
   ((open_then_close_hidden domA "zzz" none).2 (by decide)).1⟩

/-- C5: with the video-player modal and the video element present,
`openModal('videoPlayerModal', src)` with a truthy `src` sets the video
element's source to `src` and starts playback; `closeModal('videoPlayerModal')`
pauses playback and clears the source. -/
theorem video_modal_play_clear (d : Dom) (m vp : Elem) (src : String)
    (h1 : d "videoPlayerModal" = some m) (h2 : d "videoPlayer" = some vp)
    (h3 : src ≠ "") :
    (openModal d "videoPlayerModal" (some src)) "videoPlayer"
      = some { vp with src := src, paused := false }
    ∧ (closeModal d "videoPlayerModal") "videoPlayer"
      = some { vp with paused := true, src := "" } := by
  have hne : ("videoPlayer" : String) ≠ "videoPlayerModal" := by decide
  constructor
  · unfold openModal
    rw [h1]
    have hcond : ("videoPlayerModal" : String) = "videoPlayerModal"
        ∧ truthyStr (some src) := ⟨rfl, by simp [truthyStr, h3]⟩
    simp only [if_pos hcond]
    rw [show setElem d "videoPlayerModal" { m with display := "block" } "videoPlayer"
          = some vp from by rw [setElem_ne _ _ _ _ hne]; exact h2]
    simp [setElem_self, truthyStr, h3]
  · unfold closeModal
    rw [h1]
    simp only [if_pos rfl]
    rw [show setElem d "videoPlayerModal" { m with display := "none" } "videoPlayer"
          = some vp from by rw [setElem_ne _ _ _ _ hne]; exact h2]
    simp [setElem_self]

/-- A sample DOM with the video-player modal and its video element. -/
def domV : Dom := fun i =>
  if i = "videoPlayerModal" then some ⟨"none", ["modal"], "", true⟩
  else if i = "videoPlayer" then some ⟨"", [], "", true⟩ else none

theorem video_modal_play_clear_check :
    (openModal domV "videoPlayerModal" (some "movie.mp4")) "videoPlayer"
      = some ⟨"", [], "movie.mp4", false⟩
    ∧ (closeModal domV "videoPlayerModal") "videoPlayer"
      = some ⟨"", [], "", true⟩ :=
  ⟨(video_modal_play_clear domV ⟨"none", ["modal"], "", true⟩ ⟨"", [], "", true⟩
      "movie.mp4" (by decide) (by decide) (by decide)).1,
   (video_modal_play_clear domV ⟨"none", ["modal"], "", true⟩ ⟨"", [], "", true⟩
      "movie.mp4" (by decide) (by decide) (by decide)).2⟩

/-- C8: a click whose target carries the `'modal'` class closes exactly the
target modal (its own id) and changes no other element's visibility; a click
on a target without the class closes nothing. -/
theorem backdrop_click (d : Dom) (tid : String) (tclasses : List String) :
    (tclasses.contains "modal" = true →
      (∀ j, j ≠ tid → displayOf (windowOnclick d tid tclasses) j = displayOf d j)
      ∧ ((d tid).isSome = true →
          displayOf (windowOnclick d tid tclasses) tid = some "none"))
    ∧ (tclasses.contains "modal" = false → windowOnclick d tid tclasses = d) := by
  constructor
  · intro hc
    constructor
    · intro j hj
      simp only [windowOnclick, hc, if_true]
      exact displayOf_closeModal_ne d tid j hj
    · intro hs
      simp only [windowOnclick, hc, if_true]
      exact closeModal_display_self d tid hs
  · intro hc
    unfold windowOnclick
    rw [if_neg (by rw [hc]; simp)]

/-- A sample DOM with two visible modals `m1` and `m2`. -/
def domB : Dom := fun i =>
  if i = "m1" then some ⟨"block", ["modal"], "", true⟩
  else if i = "m2" then some ⟨"block", ["modal"], "", true⟩ else none

theorem backdrop_click_check :
    displayOf (windowOnclick domB "m1" ["modal"]) "m2" = displayOf domB "m2"
    ∧ displayOf (windowOnclick domB "m1" ["modal"]) "m1" = some "none"
    ∧ windowOnclick domB "m1" ["content"] = domB :=
  ⟨((backdrop_click domB "m1" ["modal"]).1 (by decide)).1 "m2" (by decide),
   ((backdrop_click domB "m1" ["modal"]).1 (by decide)).2 (by decide),
   (backdrop_click domB "m1" ["content"]).2 (by decide)⟩

/-- The markup a password toggle button is written against: the input is
masked and the icon shows the eye, or the input is plain text and the icon
shows the slashed eye. -/
def pwWellFormed (s : PwState) : Prop :=
  (s.inputType = "password" ∧ "fa-eye" ∈ s.iconClasses
    ∧ "fa-eye-slash" ∉ s.iconClasses)
  ∨ (s.inputType = "text" ∧ "fa-eye-slash" ∈ s.iconClasses
    ∧ "fa-eye" ∉ s.iconClasses)

/-- C6: on a button whose markup satisfies the precondition, two successive
`togglePassword` calls restore the input's `type` and the icon's class set
to their original values. -/
theorem toggle_password_involution (s : PwState) (h : pwWellFormed s) :
    (togglePassword (togglePassword s)).inputType = s.inputType
    ∧ ∀ c, c ∈ (togglePassword (togglePassword s)).iconClasses ↔ c ∈ s.iconClasses := by
  obtain ⟨t, cs⟩ := s
  have tp_pw : ∀ xs, togglePassword ⟨"password", xs⟩
      = ⟨"text", classAdd (classRemove xs "fa-eye") "fa-eye-slash"⟩ := by
    intro xs
    simp [togglePassword]
  have tp_tx : ∀ xs, togglePassword ⟨"text", xs⟩
      = ⟨"password", classAdd (classRemove xs "fa-eye-slash") "fa-eye"⟩ := by
    intro xs
    simp [togglePassword]
  rcases h with ⟨ht, he, hns⟩ | ⟨ht, hs, hne⟩ <;> simp only at ht <;> subst ht
  · rw [tp_pw cs, tp_tx _]
    refine ⟨rfl, fun c => ?_⟩
    simp only [mem_classAdd, mem_classRemove]
    by_cases h1 : c = "fa-eye" <;> by_cases h2 : c = "fa-eye-slash" <;> simp_all
  · rw [tp_tx cs, tp_pw _]
    refine ⟨rfl, fun c => ?_⟩
    simp only [mem_classAdd, mem_classRemove]
    by_cases h1 : c = "fa-eye" <;> by_cases h2 : c = "fa-eye-slash" <;> simp_all

theorem toggle_password_involution_check :
    (togglePassword (togglePassword ⟨"password", ["fa-eye"]⟩)).inputType = "password"
    ∧ ("fa-eye-slash" ∈ (togglePassword (togglePassword ⟨"password", ["fa-eye"]⟩)).iconClasses
        ↔ "fa-eye-slash" ∈ (["fa-eye"] : List String)) :=
  ⟨(toggle_password_involution ⟨"password", ["fa-eye"]⟩
      (by unfold pwWellFormed; simp)).1,
   (toggle_password_involution ⟨"password", ["fa-eye"]⟩
      (by unfold pwWellFormed; simp)).2 "fa-eye-slash"⟩

/-- A star has all the randomized attributes in the ranges the loop
produces: top and left in `[0,100)`, width in `[0,3)` with height equal to
width, delay in `[0,5)`, duration in `[5,10)`. -/
def starOk (s : Star) : Prop :=
  0 ≤ s.top ∧ s.top < 100 ∧ 0 ≤ s.left ∧ s.left < 100
  ∧ 0 ≤ s.width ∧ s.width < 3 ∧ s.height = s.width
  ∧ 0 ≤ s.delay ∧ s.delay < 5 ∧ 5 ≤ s.duration ∧ s.duration < 10

/-- C7: with the container present, exactly 150 star nodes are appended,
and every one has top/left in `[0,100)`, width in `[0,3)` with height equal
to width, delay in `[0,5)`, and duration in `[5,10)`. -/
theorem star_background_bounds (r : Nat → ℚ) (hr : ∀ n, 0 ≤ r n ∧ r n < 1) :
    (starsAppended true r).length = 150
    ∧ ∀ s ∈ starsAppended true r, starOk s := by
  constructor
  · simp [starsAppended, numberOfStars]
  · intro s hs
    simp only [starsAppended, if_true] at hs
    rw [List.mem_map] at hs
    obtain ⟨i, _, rfl⟩ := hs
    obtain ⟨h0a, h0b⟩ := hr (5 * i)
    obtain ⟨h1a, h1b⟩ := hr (5 * i + 1)
    obtain ⟨h2a, h2b⟩ := hr (5 * i + 2)
    obtain ⟨h3a, h3b⟩ := hr (5 * i + 3)
    obtain ⟨h4a, h4b⟩ := hr (5 * i + 4)
    unfold starOk
    refine ⟨?_, ?_, ?_, ?_, ?_, ?_, ?_, ?_, ?_, ?_, ?_⟩ <;>
      simp only [mkStar] <;> first | rfl | linarith

theorem star_background_bounds_check :
    (starsAppended true (fun _ => (0 : ℚ))).length = 150
    ∧ starOk (mkStar (fun _ => (0 : ℚ)) 0) :=
  ⟨(star_background_bounds (fun _ => 0) (fun n => ⟨le_refl 0, by norm_num⟩)).1,
   (star_background_bounds (fun _ => 0) (fun n => ⟨le_refl 0, by norm_num⟩)).2
     (mkStar (fun _ => 0) 0)
     (List.mem_map.mpr ⟨0, List.mem_range.mpr (by norm_num [numberOfStars]), rfl⟩)⟩

end MainJs
